import Mathlib

/-!
Verification of the Bluesky alt-text bot (`src/main.py`) against its
natural-language specification.  The Python source is shallowly embedded:
pure record manipulation becomes Lean functions, the SQLite ledger becomes
an explicit association list threaded through SQL-statement semantics, and
the HTTP/side-effecting functions become functions over explicit response
traces that return the sleeps performed and the outcome.
-/

namespace AltTextCop

/-! ## Data model: decoded post records (`skeet` dictionaries in `main.py`) -/

/-- One image attachment inside an `app.bsky.embed.images` embed.
`alt = none` models a dictionary with no `alt` key (Python `dict.get`
returns `None`); `alt = some s` models an `alt` key bound to string `s`. -/
structure ImageAttachment where
  alt : Option String
  deriving Repr, DecidableEq

/-- The `embed` dictionary of a post record: its `$type` tag (absent key
modelled as `none`) and its `images` list (`embed.get("images", [])`
defaults to the empty list, modelled by `imagesField.getD []`). -/
structure EmbedRec where
  typeTag : Option String
  imagesField : Option (List ImageAttachment)
  deriving Repr, DecidableEq

/-- A decoded record pulled out of a commit's block container: its `$type`
tag and optional `embed` dictionary, as accessed by `on_message_handler`. -/
structure PostRecord where
  typeTag : Option String
  embed : Option EmbedRec
  deriving Repr, DecidableEq

/-- The attachment filter embedded from `on_message_handler`
(`src/main.py` lines 226-238): a record is inspected only when its
`$type` is `app.bsky.feed.post`, its embed is present, and the embed's
`$type` is `app.bsky.embed.images`; the flagged attachments are those
whose `alt` field compares equal to the empty string. -/
def findMissingAltImages (r : PostRecord) : List ImageAttachment :=
  if r.typeTag = some "app.bsky.feed.post" then
    match r.embed with
    | none => []
    | some e =>
      if e.typeTag = some "app.bsky.embed.images" then
        (e.imagesField.getD []).filter (fun img => img.alt == some "")
      else []
  else []

/-! ## Dedup ledger: the SQLite table `reply_log(repo PRIMARY KEY, last_reply_timestamp)` -/

/-- Timestamps are modelled as integer seconds. -/
abbrev Instant := Int

/-- The `reply_log` table: rows of (repo, last_reply_timestamp). -/
abbrev Ledger := List (String × Instant)

/-- The SQL statements executed by `update_reply_log` and
`should_send_reply` in `src/main.py`. -/
inductive SqlStmt where
  | selectByRepo (repo : String)
  | insertOrReplace (repo : String) (ts : Instant)
  deriving Repr, DecidableEq

/-- SQLite semantics of the two statements over the `reply_log` table:
`SELECT last_reply_timestamp FROM reply_log WHERE repo = ?` returns the
stored timestamp (if any) and leaves the table unchanged;
`INSERT OR REPLACE` deletes any row with the same primary key and
inserts the new one. -/
def execStmt : SqlStmt → Ledger → Option Instant × Ledger
  | .selectByRepo repo, db =>
      ((db.find? (fun p => p.1 == repo)).map (·.2), db)
  | .insertOrReplace repo ts, db =>
      (none, db.filter (fun p => p.1 != repo) ++ [(repo, ts)])

/-- The cooldown `timedelta(days=7)` in seconds. -/
def sevenDays : Int := 7 * 24 * 60 * 60

/-- Embedding of `update_reply_log` (`src/main.py` lines 36-47): runs a
single `INSERT OR REPLACE` with the current time and returns the new
table state. -/
def update_reply_log (db : Ledger) (repo : String) (now : Instant) : Ledger :=
  (execStmt (.insertOrReplace repo now) db).2

/-- Embedding of `should_send_reply` (`src/main.py` lines 49-69) at the
database level: runs the `SELECT`, then computes `can_reply` exactly as
the Python does (`True` when no row exists, or when
`current_time - last_reply_time > timedelta(days=7)`), returning the
flag together with the table state after the call. -/
def should_send_reply_db (db : Ledger) (repo : String) (now : Instant) :
    Bool × Ledger :=
  let res := execStmt (.selectByRepo repo) db
  let can_reply :=
    match res.1 with
    | none => true
    | some last => decide (now - last > sevenDays)
  (can_reply, res.2)

/-- The boolean returned by `should_send_reply`. -/
def should_send_reply (db : Ledger) (repo : String) (now : Instant) : Bool :=
  (should_send_reply_db db repo now).1

/-- The stored timestamp for a repo, as the `SELECT` sees it. -/
def lookupRepo (db : Ledger) (repo : String) : Option Instant :=
  (db.find? (fun p => p.1 == repo)).map (·.2)

/-- The `reply_log` primary-key invariant: at most one row per repo. -/
def keysNodup (db : Ledger) : Prop := (db.map Prod.fst).Nodup

/-! ## Credential manager: `get_access_token` / `ensure_valid_token` -/

/-- An HTTP response as observed by `get_access_token` and `create_reply`:
its status code, the optional `RateLimit-Reset` header (epoch seconds),
and — for a successful authentication response — the `accessJwt` body
field together with the `exp` claim obtained by decoding that JWT
(`decoded.get('exp', 0)` defaults to `0`, modelled by `exp.getD 0`). -/
structure HttpResponse where
  status : Nat
  rateLimitReset : Option Int
  accessJwt : String
  exp : Option Int
  deriving Repr, DecidableEq

/-- The sleep performed on a 429 response: `max(0, reset - now)` seconds
when the `RateLimit-Reset` header is present, otherwise a fixed 60
seconds (`src/main.py` lines 93-99 and 188-194). -/
def rateLimitWait (now : Instant) (reset : Option Int) : Int :=
  match reset with
  | some r => max 0 (r - now)
  | none => 60

/-- Outcome of the authentication loop over a finite response trace:
`pending` means the trace was exhausted while the loop was still
retrying (the real loop is unbounded), `failed` means a non-429 HTTP
error made `raise_for_status` raise, and `success` carries the cached
token and its decoded expiry. -/
inductive ExchangeOutcome where
  | pending
  | failed (status : Nat)
  | success (token : String) (expiry : Int)
  deriving Repr, DecidableEq

/-- Embedding of the `while True` loop of `get_access_token`
(`src/main.py` lines 77-120) over an explicit trace of responses, one
per loop iteration.  Returns the list of sleeps performed (in order)
and the outcome.  A 429 response causes a sleep of `rateLimitWait` and
an unconditional retry (`continue`), with the clock advanced by the
sleep; any other status `≥ 400` makes `response.raise_for_status()`
raise, which propagates (`raise` in the handler); a status `< 400`
stores the token and its decoded `exp` claim and returns. -/
def get_access_token (now : Instant) : List HttpResponse → List Int × ExchangeOutcome
  | [] => ([], .pending)
  | r :: rest =>
    if r.status == 429 then
      (rateLimitWait now r.rateLimitReset ::
         (get_access_token (now + rateLimitWait now r.rateLimitReset) rest).1,
       (get_access_token (now + rateLimitWait now r.rateLimitReset) rest).2)
    else if r.status ≥ 400 then ([], .failed r.status)
    else ([], .success r.accessJwt (r.exp.getD 0))

/-- The process-wide token state: the globals `access_token` and
`token_expiry` of `src/main.py`. -/
structure TokenState where
  access_token : Option String
  token_expiry : Option Instant
  deriving Repr, DecidableEq

/-- Result of `ensure_valid_token`: whether the blocking exchange was
performed, the sleeps it executed, its outcome, and the token state
afterwards (unchanged when no exchange ran, or when the exchange did
not reach a success before the trace ended). -/
structure EnsureResult where
  exchanged : Bool
  sleeps : List Int
  outcome : ExchangeOutcome
  state : TokenState
  deriving Repr, DecidableEq

/-- Embedding of `ensure_valid_token` (`src/main.py` lines 122-127): the
exchange is skipped exactly when a token is cached and `utcnow()` is
strictly before its expiry; otherwise `get_access_token` runs against
the supplied response trace and, on success, overwrites the global
token state with the new token and decoded expiry. -/
def ensure_valid_token (st : TokenState) (now : Instant)
    (trace : List HttpResponse) : EnsureResult :=
  match st.access_token, st.token_expiry with
  | some _, some e =>
    if now ≥ e then
      let res := get_access_token now trace
      { exchanged := true, sleeps := res.1, outcome := res.2,
        state := match res.2 with
          | .success tok exp => ⟨some tok, some exp⟩
          | _ => st }
    else
      { exchanged := false, sleeps := [], outcome := .pending, state := st }
  | _, _ =>
    let res := get_access_token now trace
    { exchanged := true, sleeps := res.1, outcome := res.2,
      state := match res.2 with
        | .success tok exp => ⟨some tok, some exp⟩
        | _ => st }

/-! ## Reply dispatcher: `create_reply` -/

/-- A strong reference `{uri, cid}` as used in the reply's `reply` field. -/
structure StrongRef where
  uri : String
  cid : String
  deriving Repr, DecidableEq

/-- The `index` of a rich-text facet: byte offsets into the post text. -/
structure FacetIndex where
  byteStart : Nat
  byteEnd : Nat
  deriving Repr, DecidableEq

/-- A link feature of a facet (`app.bsky.richtext.facet#link`). -/
structure LinkFeature where
  uri : String
  deriving Repr, DecidableEq

/-- A rich-text facet: an index and its features. -/
structure Facet where
  index : FacetIndex
  features : List LinkFeature
  deriving Repr, DecidableEq

/-- The `reply` field: thread root and immediate parent references. -/
structure ReplyRef where
  root : StrongRef
  parent : StrongRef
  deriving Repr, DecidableEq

/-- The reply record built by `create_reply` (`src/main.py` lines 137-165). -/
structure ReplyRecord where
  typeTag : String
  text : String
  reply : ReplyRef
  facets : List Facet
  createdAt : String
  deriving Repr, DecidableEq

/-- The fixed reply body text (`src/main.py` line 139). -/
def reply_text : String :=
  "Thank you for using BlueSky but can you please add alt text to your images so that everyone can enjoy your posts.\n\n If this image is just decorative or the description is in the text, please accept my apologises, I'm just a bot that scans the firehose for missing alt text."

/-- The hyperlink target of the single facet (`src/main.py` line 159). -/
def facet_link_uri : String := "https://later.com/blog/alt-text/"

/-- The `reply_record` dictionary constructed by `create_reply`
(`src/main.py` lines 137-165): fixed body text, the target post as both
root and parent, and exactly one link facet with constant byte offsets
46 and 59. -/
def reply_record (post_uri post_cid created_at : String) : ReplyRecord :=
  { typeTag := "app.bsky.feed.post"
    text := reply_text
    reply := { root := ⟨post_uri, post_cid⟩, parent := ⟨post_uri, post_cid⟩ }
    facets := [{ index := ⟨46, 59⟩, features := [⟨facet_link_uri⟩] }]
    createdAt := created_at }

/-- Result of one `create_reply` call over a single HTTP response: the
sleeps performed in order and either the error status raised by
`response.raise_for_status()` or a successful receipt (unit). -/
structure DispatchResult where
  sleeps : List Int
  result : Except Nat Unit
  deriving Repr

/-- Embedding of the request/response part of `create_reply`
(`src/main.py` lines 172-205): an unconditional `sleep(5)` pacing delay
before the POST; on a 429 response a further sleep of `rateLimitWait`
with NO retry (the same response object flows on); then
`raise_for_status()` raises for any status `≥ 400` — including the 429
itself — and otherwise the call returns the parsed receipt. -/
def create_reply_http (now : Instant) (resp : HttpResponse) : DispatchResult :=
  let pacing : List Int := [5]
  let rlSleeps : List Int :=
    if resp.status == 429 then [rateLimitWait (now + 5) resp.rateLimitReset] else []
  let result : Except Nat Unit :=
    if resp.status ≥ 400 then .error resp.status else .ok ()
  { sleeps := pacing ++ rlSleeps, result := result }

/-! ## Stream supervisor: `tell_off` and `on_message_handler` -/

/-- Observable outcome of one `tell_off` call: whether `create_reply` was
invoked at all, whether it returned successfully, and the ledger state
after the call. -/
structure TellOffResult where
  dispatched : Bool
  succeeded : Bool
  ledger : Ledger
  deriving Repr

/-- Embedding of `tell_off` (`src/main.py` lines 244-252): `create_reply`
is called only when `should_send_reply(repo)` is true; `update_reply_log`
runs only after `create_reply` returns without raising; the surrounding
`try/except` catches a raising `create_reply`, leaving the ledger
untouched.  The HTTP response the dispatch would receive is passed in
explicitly. -/
def tell_off (db : Ledger) (now : Instant) (repo : String)
    (resp : HttpResponse) : TellOffResult :=
  if should_send_reply db repo now then
    match (create_reply_http now resp).result with
    | .ok _ => { dispatched := true, succeeded := true,
                 ledger := update_reply_log db repo now }
    | .error _ => { dispatched := true, succeeded := false, ledger := db }
  else
    { dispatched := false, succeeded := false, ledger := db }

/-- The per-image loop of `on_message_handler` (`src/main.py` lines
234-238) restricted to one account: for each flagged image, in order,
`tell_off` runs against the ledger state left by the previous image.
Each list element supplies the wall-clock instant of that iteration and
the HTTP response its dispatch would receive.  Returns the per-image
`tell_off` outcomes and the final ledger. -/
def process_flagged (repo : String) :
    List (Instant × HttpResponse) → Ledger → List TellOffResult × Ledger
  | [], db => ([], db)
  | e :: rest, db =>
    (tell_off db e.1 repo e.2 ::
       (process_flagged repo rest (tell_off db e.1 repo e.2).ledger).1,
     (process_flagged repo rest (tell_off db e.1 repo e.2).ledger).2)

/-- Holds when, after every successful dispatch in the trace, no later
element dispatched at all. -/
def noDispatchAfterSuccess : List TellOffResult → Prop
  | [] => True
  | r :: rest =>
    (r.succeeded = true → ∀ r2 ∈ rest, r2.dispatched = false) ∧
      noDispatchAfterSuccess rest

/-- One operation of a commit (`op` in `on_message_handler`): its action
string, its content identifier (`none` models a Python `None` cid, and
`some ""` an empty one — both falsy), and its record path. -/
structure Operation where
  action : String
  cid : Option String
  path : String
  deriving Repr, DecidableEq

/-- A repository-commit message: the account (`commit.repo`), the
operations, and the optional binary block container already decoded to
a cid-indexed mapping of records (`none` models absent or empty
`commit.blocks`, which is falsy in Python). -/
structure Commit where
  repo : String
  ops : List Operation
  blocks : Option (List (String × PostRecord))
  deriving Repr

/-- The result of `parse_subscribe_repos_message`: either a typed
repository commit or some other message kind (the `isinstance` check
fails). -/
inductive ParsedMessage where
  | commit (c : Commit)
  | other

/-- The guard `op.action in ["create"] and op.cid` of `src/main.py` line
221: the action is `create` and the cid is truthy (present and
non-empty). -/
def opRelevant (op : Operation) : Bool :=
  op.action == "create" &&
    (match op.cid with
     | some s => s != ""
     | none => false)

/-- The operations of a commit that `on_message_handler` resolves against
the block container and processes. -/
def processedOps (c : Commit) : List Operation := c.ops.filter opRelevant

/-- The reply targets one relevant operation produces: the record at the
operation's cid is looked up in the block container (a missing block
makes the per-op `try/except` swallow the failure, producing nothing),
and each flagged image of the record yields one `tell_off` target
`(post_uri, post_cid, repo)` with `post_uri = f"at://{commit.repo}/{op.path}"`. -/
def opTargets (repo : String) (blocks : List (String × PostRecord))
    (op : Operation) : List (String × String × String) :=
  match op.cid with
  | none => []
  | some cid =>
    match blocks.lookup cid with
    | none => []
    | some record =>
      (findMissingAltImages record).map
        (fun _ => ("at://" ++ repo ++ "/" ++ op.path, cid, repo))

/-- Embedding of the dispatch plan of `on_message_handler` (`src/main.py`
lines 211-238): a non-commit message or a commit without a block
container is skipped silently (empty plan); otherwise every relevant
operation contributes the targets of its flagged images, in order. -/
def on_message_handler_plan : ParsedMessage → List (String × String × String)
  | .other => []
  | .commit c =>
    match c.blocks with
    | none => []
    | some bs => (processedOps c).foldr (fun op acc => opTargets c.repo bs op ++ acc) []

/-! ## Helper lemmas -/

/-- The check `should_send_reply` computed from the stored row. -/
theorem should_send_reply_eq (db : Ledger) (repo : String) (now : Instant) :
    should_send_reply db repo now =
      match lookupRepo db repo with
      | none => true
      | some last => decide (now - last > sevenDays) := rfl

/-- After an upsert for `repo`, the `SELECT` sees the upserted timestamp. -/
theorem lookupRepo_update_self (db : Ledger) (repo : String) (t : Instant) :
    lookupRepo (update_reply_log db repo t) repo = some t := by
  unfold lookupRepo update_reply_log execStmt
  rw [List.find?_append]
  have h1 : (db.filter (fun p => p.1 != repo)).find? (fun p => p.1 == repo) = none := by
    rw [List.find?_eq_none]
    intro x hx
    have hne := List.of_mem_filter hx
    simp only [bne_iff_ne, ne_eq] at hne
    simp [hne]
  rw [h1]
  simp

/-- After an upsert for `repo`, the rows keyed by `repo` are exactly the
upserted one. -/
theorem filter_update_self (db : Ledger) (repo : String) (t : Instant) :
    (update_reply_log db repo t).filter (fun p => p.1 == repo) = [(repo, t)] := by
  unfold update_reply_log execStmt
  rw [List.filter_append]
  have h1 : (db.filter (fun p => p.1 != repo)).filter (fun p => p.1 == repo) = [] := by
    rw [List.filter_eq_nil_iff]
    intro p hp
    have := List.of_mem_filter hp
    simp only [bne_iff_ne, ne_eq] at this
    simp [this]
  rw [h1]
  simp

/-- Upserting preserves the primary-key invariant. -/
theorem keysNodup_update (db : Ledger) (repo : String) (t : Instant)
    (h : keysNodup db) : keysNodup (update_reply_log db repo t) := by
  unfold keysNodup update_reply_log execStmt
  rw [List.map_append, List.nodup_append]
  refine ⟨?_, by simp, ?_⟩
  · exact ((List.filter_sublist db).map Prod.fst).nodup h
  · intro a ha hb
    simp only [List.map_cons, List.map_nil, List.mem_singleton] at hb
    subst hb
    obtain ⟨p, hp, hpa⟩ := List.mem_map.mp ha
    have hne := List.of_mem_filter hp
    simp only [bne_iff_ne, ne_eq] at hne
    exact hne hpa

/-- A successful `tell_off` wrote the upsert; an unsuccessful one left the
ledger unchanged. -/
theorem tell_off_ledger (db : Ledger) (now : Instant) (repo : String)
    (resp : HttpResponse) :
    ((tell_off db now repo resp).succeeded = true →
      (tell_off db now repo resp).ledger = update_reply_log db repo now) ∧
    ((tell_off db now repo resp).succeeded = false →
      (tell_off db now repo resp).ledger = db) := by
  unfold tell_off
  by_cases hs : should_send_reply db repo now
  · cases hres : (create_reply_http now resp).result <;> simp [hs, hres]
  · simp [hs]

/-- After every response in the trace, the exchange loop is still running. -/
theorem get_access_token_all429 (tr : List HttpResponse)
    (h : ∀ r ∈ tr, r.status = 429) :
    ∀ n : Instant, (get_access_token n tr).2 = .pending := by
  induction tr with
  | nil => intro n; rfl
  | cons r rest ih =>
    intro n
    have hr : r.status = 429 := h r (List.mem_cons_self r rest)
    have hrest : ∀ x ∈ rest, x.status = 429 := fun x hx => h x (List.mem_cons_of_mem r hx)
    simp [get_access_token, hr, ih hrest]

/-- A trace in which the dedup entry stays fresh produces no dispatch at
all: every `tell_off` is a no-op and the ledger is unchanged. -/
theorem process_flagged_blocked (repo : String) (t0 : Instant)
    (events : List (Instant × HttpResponse)) (db : Ledger)
    (hdb : lookupRepo db repo = some t0)
    (hw : ∀ e ∈ events, e.1 - t0 ≤ sevenDays) :
    process_flagged repo events db =
      (events.map (fun _ => ⟨false, false, db⟩), db) := by
  induction events with
  | nil => rfl
  | cons e rest ih =>
    have he : e.1 - t0 ≤ sevenDays := hw e (List.mem_cons_self e rest)
    have hs : should_send_reply db repo e.1 = false := by
      rw [should_send_reply_eq, hdb]
      show decide (e.1 - t0 > sevenDays) = false
      exact decide_eq_false (not_lt.mpr he)
    have ht : tell_off db e.1 repo e.2 = ⟨false, false, db⟩ := by
      unfold tell_off
      simp [hs]
    unfold process_flagged
    rw [ht]
    rw [ih (fun x hx => hw x (List.mem_cons_of_mem e hx))]
    simp

/-- Vacuously, a trace with no successful dispatch satisfies
`noDispatchAfterSuccess`. -/
theorem noDispatchAfterSuccess_of_no_success (l : List TellOffResult)
    (h : ∀ r ∈ l, r.succeeded = false) : noDispatchAfterSuccess l := by
  induction l with
  | nil => trivial
  | cons a l ih =>
    refine ⟨fun hs => ?_, ih (fun r hr => h r (List.mem_cons_of_mem a hr))⟩
    rw [h a (List.mem_cons_self a l)] at hs
    cases hs

/-- Either `ensure_valid_token` skips the exchange (cached token with a
future expiry, state untouched) or performs it, caching the result on
success. -/
theorem ensure_valid_token_cases (st : TokenState) (now : Instant)
    (trace : List HttpResponse) :
    ((∃ tok e, st.access_token = some tok ∧ st.token_expiry = some e ∧ now < e) ∧
      ensure_valid_token st now trace = ⟨false, [], .pending, st⟩) ∨
    ((¬ ∃ tok e, st.access_token = some tok ∧ st.token_expiry = some e ∧ now < e) ∧
      ensure_valid_token st now trace =
        ⟨true, (get_access_token now trace).1, (get_access_token now trace).2,
         match (get_access_token now trace).2 with
         | .success tok ex => ⟨some tok, some ex⟩
         | _ => st⟩) := by
  obtain ⟨atok, texp⟩ := st
  cases atok with
  | none =>
    right
    refine ⟨?_, rfl⟩
    rintro ⟨tok, e, h1, _, _⟩
    cases h1
  | some tok =>
    cases texp with
    | none =>
      right
      refine ⟨?_, rfl⟩
      rintro ⟨tok', e', _, h2, _⟩
      cases h2
    | some e =>
      by_cases hge : now ≥ e
      · right
        refine ⟨?_, ?_⟩
        · rintro ⟨tok', e', h1, h2, hlt⟩
          rw [Option.some.injEq] at h2
          rw [h2] at hge
          exact absurd hlt (not_lt.mpr hge)
        · unfold ensure_valid_token
          dsimp only
          rw [if_pos hge]
      · left
        refine ⟨⟨tok, e, rfl, rfl, not_le.mp hge⟩, ?_⟩
        unfold ensure_valid_token
        dsimp only
        rw [if_neg hge]

/-! ## Claim theorems -/

/-- C1: an image attachment is flagged by the filter if and only if the
record is a post with an image-collection embed and the attachment's
`alt` field is present and exactly the empty string; a non-empty or
missing `alt` is never flagged, and a non-post record, a record without
an embed, or an embed of a different type yields no flagged attachments
at all. -/
theorem findMissingAltImages_spec (r : PostRecord) (img : ImageAttachment) :
    (img ∈ findMissingAltImages r ↔
      (r.typeTag = some "app.bsky.feed.post" ∧
        ∃ e, r.embed = some e ∧ e.typeTag = some "app.bsky.embed.images" ∧
          img ∈ e.imagesField.getD [] ∧ img.alt = some "")) ∧
    (r.typeTag ≠ some "app.bsky.feed.post" → findMissingAltImages r = []) ∧
    (r.embed = none → findMissingAltImages r = []) ∧
    (∀ e, r.embed = some e → e.typeTag ≠ some "app.bsky.embed.images" →
      findMissingAltImages r = []) := by
  obtain ⟨ty, emb⟩ := r
  unfold findMissingAltImages
  by_cases hty : ty = some "app.bsky.feed.post"
  · cases emb with
    | none => simp [hty]
    | some e =>
      by_cases he : e.typeTag = some "app.bsky.embed.images"
      · simp [hty, he, List.mem_filter]
      · simp [hty, he]
  · simp [hty]

/-- C1 witness: in a post with an image-collection embed holding three
attachments (`alt = ""`, `alt = "cat"`, `alt` missing), exactly the
empty-string attachment is flagged. -/
theorem findMissingAltImages_spec_witness :
    (⟨some ""⟩ : ImageAttachment) ∈
      findMissingAltImages
        ⟨some "app.bsky.feed.post",
         some ⟨some "app.bsky.embed.images",
               some [⟨some ""⟩, ⟨some "cat"⟩, ⟨none⟩]⟩⟩ :=
  (findMissingAltImages_spec
      ⟨some "app.bsky.feed.post",
       some ⟨some "app.bsky.embed.images",
             some [⟨some ""⟩, ⟨some "cat"⟩, ⟨none⟩]⟩⟩
      ⟨some ""⟩).1.mpr
    ⟨rfl, ⟨_, rfl, rfl, by decide, rfl⟩⟩

/-- C3: `should_send_reply` is true iff no ledger row exists for the
account or the stored timestamp is older than 7 days from the current
time; it is true when no row exists, false at the instant a
`update_reply_log` was performed, and true again once more than 7 days
have elapsed since that upsert. -/
theorem should_send_reply_spec (db : Ledger) (repo : String) (now t : Instant) :
    (should_send_reply db repo now = true ↔
      lookupRepo db repo = none ∨
        ∃ last, lookupRepo db repo = some last ∧ now - last > sevenDays) ∧
    (lookupRepo db repo = none → should_send_reply db repo now = true) ∧
    should_send_reply (update_reply_log db repo t) repo t = false ∧
    (now - t > sevenDays →
      should_send_reply (update_reply_log db repo t) repo now = true) := by
  refine ⟨?_, ?_, ?_, ?_⟩
  · rw [should_send_reply_eq]
    cases h : lookupRepo db repo with
    | none => simp
    | some last => simp [h]
  · intro h
    rw [should_send_reply_eq, h]
  · rw [should_send_reply_eq, lookupRepo_update_self]
    show decide (t - t > sevenDays) = false
    refine decide_eq_false ?_
    simp [sevenDays]
  · intro h
    rw [should_send_reply_eq, lookupRepo_update_self]
    show decide (now - t > sevenDays) = true
    exact decide_eq_true h

/-- C3 witness: after an upsert at time 0 the check is false at time 0
and true at time `sevenDays + 1`. -/
theorem should_send_reply_spec_witness :
    should_send_reply (update_reply_log [] "did:plc:abc" 0) "did:plc:abc" 0 = false ∧
    should_send_reply (update_reply_log [] "did:plc:abc" 0) "did:plc:abc" 604801 = true :=
  ⟨(should_send_reply_spec [] "did:plc:abc" 604801 0).2.2.1,
   (should_send_reply_spec [] "did:plc:abc" 604801 0).2.2.2 (by decide)⟩

/-- C4: `update_reply_log` has create-or-replace semantics keyed by the
account: after two upserts for the same account the rows for that
account are exactly one, carrying the later timestamp, and upserting
preserves the at-most-one-row-per-account invariant. -/
theorem update_reply_log_upsert (db : Ledger) (repo : String) (t1 t2 : Instant) :
    (update_reply_log (update_reply_log db repo t1) repo t2).filter
        (fun p => p.1 == repo) = [(repo, t2)] ∧
    (keysNodup db → keysNodup (update_reply_log db repo t2)) :=
  ⟨filter_update_self (update_reply_log db repo t1) repo t2,
   fun h => keysNodup_update db repo t2 h⟩

/-- C4 witness: two upserts for `"a"` over a one-row table leave exactly
one `"a"` row with the later timestamp, and the key invariant holds. -/
theorem update_reply_log_upsert_witness :
    (update_reply_log (update_reply_log [("a", 5)] "a" 1) "a" 2).filter
        (fun p => p.1 == "a") = [("a", 2)] ∧
    keysNodup (update_reply_log [("a", 5)] "a" 2) :=
  ⟨(update_reply_log_upsert [("a", 5)] "a" 1 2).1,
   (update_reply_log_upsert [("a", 5)] "a" 1 2).2
     (by unfold keysNodup; decide)⟩

set_option maxRecDepth 4000 in
/-- C7: the reply record references the target post's URI and cid as both
thread root and immediate parent, carries the fixed body text, and has
exactly one link facet whose constant byte offsets 46 and 59 select the
phrase " add alt text" inside the body's UTF-8 byte positions. -/
theorem reply_record_spec (post_uri post_cid created_at : String) :
    (reply_record post_uri post_cid created_at).reply.root = ⟨post_uri, post_cid⟩ ∧
    (reply_record post_uri post_cid created_at).reply.parent = ⟨post_uri, post_cid⟩ ∧
    (reply_record post_uri post_cid created_at).text = reply_text ∧
    (reply_record post_uri post_cid created_at).facets =
      [{ index := ⟨46, 59⟩, features := [⟨facet_link_uri⟩] }] ∧
    reply_text.extract ⟨46⟩ ⟨59⟩ = " add alt text" ∧
    46 < 59 ∧ 59 ≤ reply_text.utf8ByteSize :=
  ⟨rfl, rfl, rfl, rfl, by decide, by decide, by decide⟩

/-- C10: the eligibility check is read-only: for every ledger state the
table after `should_send_reply` is identical to the table before. -/
theorem should_send_reply_readonly (db : Ledger) (repo : String) (now : Instant) :
    (should_send_reply_db db repo now).2 = db := rfl

/-- C2: `tell_off` invokes the dispatcher only when the dedup check is
true — never for an account whose row exists and is at most 7 days
old — and the ledger is updated only after a successful dispatch: a
raising dispatch leaves the ledger unchanged. -/
theorem tell_off_spec (db : Ledger) (now : Instant) (repo : String)
    (resp : HttpResponse) :
    ((tell_off db now repo resp).dispatched = true →
      should_send_reply db repo now = true) ∧
    (∀ last, lookupRepo db repo = some last → now - last ≤ sevenDays →
      (tell_off db now repo resp).dispatched = false) ∧
    ((tell_off db now repo resp).succeeded = true →
      (create_reply_http now resp).result = .ok () ∧
      (tell_off db now repo resp).ledger = update_reply_log db repo now) ∧
    (∀ st, (create_reply_http now resp).result = .error st →
      (tell_off db now repo resp).ledger = db) := by
  refine ⟨?_, ?_, ?_, ?_⟩
  · intro hd
    cases hs : should_send_reply db repo now with
    | true => rfl
    | false =>
      unfold tell_off at hd
      rw [hs] at hd
      simp at hd
  · intro last hl hle
    have hs : should_send_reply db repo now = false := by
      rw [should_send_reply_eq, hl]
      show decide (now - last > sevenDays) = false
      exact decide_eq_false (not_lt.mpr hle)
    unfold tell_off
    simp [hs]
  · intro hsucc
    unfold tell_off at hsucc ⊢
    by_cases hs : should_send_reply db repo now = true
    · cases hres : (create_reply_http now resp).result with
      | ok u =>
        cases u
        exact ⟨rfl, by simp [hs, hres]⟩
      | error st => simp [hs, hres] at hsucc
    · simp [hs] at hsucc
  · intro st hres
    unfold tell_off
    by_cases hs : should_send_reply db repo now = true <;> simp [hs, hres]

/-- C2 witness: with a 1-day-old row the dispatcher is not invoked, and
with a raising dispatch (status 500) the ledger is unchanged. -/
theorem tell_off_spec_witness :
    (tell_off [("a", 0)] 86400 "a" ⟨200, none, "tok", none⟩).dispatched = false ∧
    (tell_off [] 0 "b" ⟨500, none, "tok", none⟩).ledger = [] :=
  ⟨(tell_off_spec [("a", 0)] 86400 "a" ⟨200, none, "tok", none⟩).2.1 0
      (by decide) (by decide),
   (tell_off_spec [] 0 "b" ⟨500, none, "tok", none⟩).2.2.2 500 rfl⟩

/-- C6: every dispatch first sleeps the fixed 5-second pacing delay; a
429 response adds a sleep until the reset instant (or 60 s without the
header) but is not retried — the call still fails with status 429 —
and any status `≥ 400` yields a terminal error instead of a receipt,
while a status `< 400` returns the receipt after only the pacing
sleep. -/
theorem create_reply_http_spec (now : Instant) (resp : HttpResponse) :
    (create_reply_http now resp).sleeps.head? = some 5 ∧
    (resp.status = 429 →
      (create_reply_http now resp).sleeps =
        [5, rateLimitWait (now + 5) resp.rateLimitReset] ∧
      (create_reply_http now resp).result = .error 429) ∧
    (resp.status ≥ 400 →
      (create_reply_http now resp).result = .error resp.status) ∧
    (resp.status < 400 →
      (create_reply_http now resp).result = .ok () ∧
      (create_reply_http now resp).sleeps = [5]) := by
  unfold create_reply_http
  refine ⟨?_, ?_, ?_, ?_⟩
  · by_cases h : (resp.status == 429) = true <;> simp [h]
  · intro h
    have h4 : resp.status ≥ 400 := by omega
    simp [h, h4]
  · intro h
    simp [h]
  · intro h
    have h1 : (resp.status == 429) = false := by
      rw [beq_eq_false_iff_ne]
      omega
    have h2 : ¬ resp.status ≥ 400 := by omega
    simp [h1, h2]

/-- C6 witness: a 429 response with `RateLimit-Reset = 30` at `now = 0`
sleeps 5 s then 25 s and still raises with status 429. -/
theorem create_reply_http_spec_witness :
    (create_reply_http 0 ⟨429, some 30, "", none⟩).result = Except.error 429 :=
  ((create_reply_http_spec 0 ⟨429, some 30, "", none⟩).2.1 rfl).2

/-- C9: a non-commit message, or a commit without a block container, is
skipped silently (no dispatch targets), and every operation the handler
processes has action `create` and a present, non-empty cid. -/
theorem on_message_handler_skip (c : Commit) :
    on_message_handler_plan .other = [] ∧
    (c.blocks = none → on_message_handler_plan (.commit c) = []) ∧
    (∀ op ∈ processedOps c,
      op.action = "create" ∧ ∃ s, op.cid = some s ∧ s ≠ "") := by
  refine ⟨rfl, ?_, ?_⟩
  · intro h
    simp [on_message_handler_plan, h]
  · intro op hop
    have h := List.of_mem_filter hop
    unfold opRelevant at h
    rw [Bool.and_eq_true] at h
    obtain ⟨h1, h2⟩ := h
    refine ⟨by simpa using h1, ?_⟩
    cases hc : op.cid with
    | none =>
      rw [hc] at h2
      simp at h2
    | some s =>
      rw [hc] at h2
      exact ⟨s, rfl, by simpa using h2⟩

/-- C9 witness: a commit with a `create` operation but no block container
produces no dispatch targets. -/
theorem on_message_handler_skip_witness :
    on_message_handler_plan
      (.commit ⟨"did:plc:abc", [⟨"create", some "cid1", "p"⟩], none⟩) = [] :=
  (on_message_handler_skip ⟨"did:plc:abc", [⟨"create", some "cid1", "p"⟩], none⟩).2.1 rfl

/-- C5: `ensure_valid_token` skips the exchange exactly when a token is
cached with its expiry in the future (and then changes nothing);
otherwise it runs the blocking exchange, and on success caches the new
token with its decoded expiry.  The exchange sleeps until the reset
instant (or 60 s without the header) on every 429 and retries
unconditionally — a trace of only 429s never makes it give up — while
a non-429 HTTP error terminates the exchange as a failure and a
status `< 400` returns the token with its decoded `exp` claim. -/
theorem ensure_valid_token_spec (st : TokenState) (now : Instant)
    (trace : List HttpResponse) :
    ((ensure_valid_token st now trace).exchanged = false ↔
      ∃ tok e, st.access_token = some tok ∧ st.token_expiry = some e ∧ now < e) ∧
    ((ensure_valid_token st now trace).exchanged = false →
      ensure_valid_token st now trace = ⟨false, [], .pending, st⟩) ∧
    ((ensure_valid_token st now trace).exchanged = true →
      (ensure_valid_token st now trace).outcome = (get_access_token now trace).2 ∧
      (ensure_valid_token st now trace).sleeps = (get_access_token now trace).1 ∧
      ∀ tok ex, (get_access_token now trace).2 = .success tok ex →
        (ensure_valid_token st now trace).state = ⟨some tok, some ex⟩) ∧
    (∀ r rest, r.status = 429 →
      get_access_token now (r :: rest) =
        (rateLimitWait now r.rateLimitReset ::
           (get_access_token (now + rateLimitWait now r.rateLimitReset) rest).1,
         (get_access_token (now + rateLimitWait now r.rateLimitReset) rest).2)) ∧
    (∀ r rest, r.status ≠ 429 → r.status ≥ 400 →
      get_access_token now (r :: rest) = ([], .failed r.status)) ∧
    (∀ r rest, r.status < 400 →
      get_access_token now (r :: rest) = ([], .success r.accessJwt (r.exp.getD 0))) ∧
    (∀ tr : List HttpResponse, (∀ r ∈ tr, r.status = 429) →
      (get_access_token now tr).2 = ExchangeOutcome.pending) := by
  rcases ensure_valid_token_cases st now trace with ⟨hex, heq⟩ | ⟨hnex, heq⟩
  case inl =>
    refine ⟨?_, ?_, ?_, ?_, ?_, ?_, ?_⟩
    · rw [heq]
      exact iff_of_true rfl hex
    · intro _
      exact heq
    · intro h
      rw [heq] at h
      simp at h
    · intro r rest h429
      have h : (r.status == 429) = true := by simp [h429]
      simp [get_access_token, h]
    · intro r rest hne h4
      have h : (r.status == 429) = false := by simp [hne]
      simp [get_access_token, h, h4]
    · intro r rest hlt
      have h1 : (r.status == 429) = false := by
        rw [beq_eq_false_iff_ne]
        omega
      have h2 : ¬ r.status ≥ 400 := by omega
      simp [get_access_token, h1, h2]
    · exact fun tr h => get_access_token_all429 tr h now
  case inr =>
    refine ⟨?_, ?_, ?_, ?_, ?_, ?_, ?_⟩
    · rw [heq]
      exact iff_of_false (by simp) hnex
    · intro h
      rw [heq] at h
      simp at h
    · intro _
      rw [heq]
      refine ⟨rfl, rfl, fun tok ex hsucc => ?_⟩
      show (match (get_access_token now trace).2 with
        | ExchangeOutcome.success tok ex => TokenState.mk (some tok) (some ex)
        | _ => st) = TokenState.mk (some tok) (some ex)
      rw [hsucc]
    · intro r rest h429
      have h : (r.status == 429) = true := by simp [h429]
      simp [get_access_token, h]
    · intro r rest hne h4
      have h : (r.status == 429) = false := by simp [hne]
      simp [get_access_token, h, h4]
    · intro r rest hlt
      have h1 : (r.status == 429) = false := by
        rw [beq_eq_false_iff_ne]
        omega
      have h2 : ¬ r.status ≥ 400 := by omega
      simp [get_access_token, h1, h2]
    · exact fun tr h => get_access_token_all429 tr h now

/-- C5 witness: a cached token with future expiry skips the exchange, and
an all-429 trace leaves the exchange still retrying. -/
theorem ensure_valid_token_spec_witness :
    ensure_valid_token ⟨some "tok", some 100⟩ 50 [] =
      ⟨false, [], .pending, ⟨some "tok", some 100⟩⟩ ∧
    (get_access_token 0 [⟨429, some 10, "", none⟩, ⟨429, none, "", none⟩]).2 =
      ExchangeOutcome.pending :=
  ⟨(ensure_valid_token_spec ⟨some "tok", some 100⟩ 50 []).2.1
      ((ensure_valid_token_spec ⟨some "tok", some 100⟩ 50 []).1.mpr
        ⟨"tok", 100, rfl, rfl, by decide⟩),
   (ensure_valid_token_spec ⟨some "tok", some 100⟩ 0 []).2.2.2.2.2.2
      [⟨429, some 10, "", none⟩, ⟨429, none, "", none⟩] (by decide)⟩

/-- C8: during one pass over the flagged images of a commit, with all
iteration instants inside a single 7-day window starting at `now`, at
most one dispatch succeeds, and after a successful dispatch no later
flagged image dispatches at all — the dedup check is re-evaluated
before each send against the ledger state the previous sends left. -/
theorem one_reply_per_pass (repo : String) (now : Instant)
    (events : List (Instant × HttpResponse)) (db : Ledger)
    (hw : ∀ e ∈ events, now ≤ e.1 ∧ e.1 ≤ now + sevenDays) :
    (process_flagged repo events db).1.countP (fun r => r.succeeded) ≤ 1 ∧
    noDispatchAfterSuccess (process_flagged repo events db).1 := by
  induction events generalizing db with
  | nil => exact ⟨by simp [process_flagged], trivial⟩
  | cons e rest ih =>
    have hwe := hw e (List.mem_cons_self e rest)
    have hwrest : ∀ x ∈ rest, now ≤ x.1 ∧ x.1 ≤ now + sevenDays :=
      fun x hx => hw x (List.mem_cons_of_mem e hx)
    by_cases hs : (tell_off db e.1 repo e.2).succeeded = true
    · have hl : (tell_off db e.1 repo e.2).ledger = update_reply_log db repo e.1 :=
        (tell_off_ledger db e.1 repo e.2).1 hs
      have hlook : lookupRepo (tell_off db e.1 repo e.2).ledger repo = some e.1 := by
        rw [hl]
        exact lookupRepo_update_self db repo e.1
      have hblocked := process_flagged_blocked repo e.1 rest
        (tell_off db e.1 repo e.2).ledger hlook
        (fun x hx => by
          have h1 := hwrest x hx
          have h2 := hwe
          linarith [h1.1, h1.2, h2.1, h2.2])
      unfold process_flagged
      rw [hblocked]
      have h0 : ((rest.map (fun _ =>
          (⟨false, false, (tell_off db e.1 repo e.2).ledger⟩ : TellOffResult))).countP
            (fun r => r.succeeded)) = 0 := by
        rw [List.countP_eq_zero]
        intro a ha
        obtain ⟨x, hx, rfl⟩ := List.mem_map.mp ha
        simp
      constructor
      · rw [List.countP_cons, h0]
        simp [hs]
      · refine ⟨fun _ r2 hr2 => ?_,
          noDispatchAfterSuccess_of_no_success _ (fun r hr => ?_)⟩
        · obtain ⟨x, hx, rfl⟩ := List.mem_map.mp hr2
          rfl
        · obtain ⟨x, hx, rfl⟩ := List.mem_map.mp hr
          rfl
    · have hs' : (tell_off db e.1 repo e.2).succeeded = false :=
        Bool.not_eq_true _ ▸ hs
      have hl : (tell_off db e.1 repo e.2).ledger = db :=
        (tell_off_ledger db e.1 repo e.2).2 hs'
      unfold process_flagged
      rw [hl]
      obtain ⟨ihc, ihn⟩ := ih db hwrest
      constructor
      · rw [List.countP_cons]
        simpa [hs'] using ihc
      · exact ⟨fun hcontra => absurd hcontra (by simp [hs']), ihn⟩

/-- C8 witness: two flagged images in one pass, both dispatches would
succeed, yet at most one reply is sent. -/
theorem one_reply_per_pass_witness :
    (process_flagged "did:plc:abc"
        [(0, ⟨200, none, "", none⟩), (1, ⟨200, none, "", none⟩)] []).1.countP
      (fun r => r.succeeded) ≤ 1 :=
  (one_reply_per_pass "did:plc:abc" 0
    [(0, ⟨200, none, "", none⟩), (1, ⟨200, none, "", none⟩)] []
    (by decide)).1

end AltTextCop
